import Mathlib

/-!
Shallow embedding of the Attendly employee-attendance backend
(`backend/app.py`): the relational state, the request handlers the
verified properties talk about, and the theorems settling those
properties.

Conventions of the embedding:
* machine state is the relational store: lists of rows for the
  `users`, `employees` and `employee_attendance` tables;
* every handler is a pure function from the request data and the
  current store to a `HandlerResult` (HTTP code, message, new store,
  and whether the database connection was opened / closed — the last
  two track the resource discipline of the handler);
* Python truthiness of optional JSON fields is modelled explicitly
  (`truthy_nat`, `truthy_str`);
* `bcrypt` hashing / verification is an opaque external capability and
  is passed to `login` as a function parameter;
* wall-clock values (`today`, `current_time`, `now`) are parameters;
* an unexpected exception inside a handler body (e.g. the INSERT
  failing) is modelled by an explicit boolean flag where a claim needs
  it; when the flag is set the run takes the handler's `except` path;
* SQL row order (ORDER BY clauses) is not modelled; listing results
  are stated up to membership.
-/

/-- A row of the `users` table. `employee_id` is the 6-digit login
code (a string column), `password` the stored bcrypt hash. -/
structure UserRow where
  id : Nat
  name : String
  email : String
  password : String
  employee_id : String
  is_admin : Bool
deriving Repr, DecidableEq

/-- A row of the `employees` table. `status` and `deleted_at` are
nullable columns. -/
structure EmployeeRow where
  id : Nat
  name : String
  email : String
  department : String
  status : Option String
  is_active : Bool
  deleted_at : Option Nat
deriving Repr, DecidableEq

/-- A row of the `employee_attendance` table; one row per
(employee, date). `date` is an abstract day number. -/
structure AttendanceRow where
  employee_id : Nat
  employee_name : String
  date : Nat
  check_in : Option String
  check_out : Option String
  status : Option String
deriving Repr, DecidableEq

/-- The relational store. -/
structure DB where
  users : List UserRow
  employees : List EmployeeRow
  employee_attendance : List AttendanceRow
deriving Repr, DecidableEq

/-- Outcome of one handler run: HTTP status code, response message,
the store after the run, and whether the handler opened / closed its
database connection on the exit path taken. -/
structure HandlerResult where
  code : Nat
  message : String
  db : DB
  conn_opened : Bool
  conn_closed : Bool
deriving Repr, DecidableEq

/-- Python truthiness of an optional integer JSON field
(`not employee_id` is true for a missing field and for 0). -/
def truthy_nat : Option Nat → Bool
  | none => false
  | some n => n != 0

/-- Python truthiness of an optional string JSON field
(`not s` is true for a missing field and for the empty string). -/
def truthy_str : Option String → Bool
  | none => false
  | some s => s != ""

/-- `t if t else default` on an optional time string: the fallback the
handlers use for missing or empty client-supplied times. -/
def py_or_time (t : Option String) (default : String) : String :=
  match t with
  | none => default
  | some s => if s = "" then default else s

/-- Python `str.lower` on the (ASCII) strings of the model, as a map
over the character list. -/
def py_lower (s : String) : String :=
  String.mk (s.data.map Char.toLower)

/-- Python `str.strip`: drop whitespace from both ends. -/
def py_strip (s : String) : String :=
  String.mk
    (((s.data.dropWhile Char.isWhitespace).reverse.dropWhile
        Char.isWhitespace).reverse)

/-- `e.lower().strip() if e else ''`: the email normalisation of the
attendance-marking authorization check. -/
def norm_email (e : String) : String :=
  if e = "" then "" else py_strip (py_lower e)

/-- `SELECT * FROM employees WHERE id = %s` (first match). -/
def find_employee (db : DB) (eid : Nat) : Option EmployeeRow :=
  db.employees.find? (fun e => e.id == eid)

/-- `SELECT ... FROM users WHERE id = %s` (first match). -/
def find_user (db : DB) (uid : Nat) : Option UserRow :=
  db.users.find? (fun u => u.id == uid)

/-- `SELECT * FROM employee_attendance WHERE employee_id = %s AND
date = %s` (first match). -/
def find_attendance (db : DB) (eid d : Nat) : Option AttendanceRow :=
  db.employee_attendance.find? (fun r => r.employee_id == eid && r.date == d)

/-- `UPDATE employees SET status = %s WHERE id = %s`. -/
def employees_set_status (db : DB) (eid : Nat) (s : Option String) : DB :=
  { db with employees :=
      db.employees.map (fun e => if e.id == eid then { e with status := s } else e) }

/-- `UPDATE employee_attendance SET check_out = %s, status =
'checked_out' WHERE employee_id = %s AND date = %s`. -/
def attendance_set_checkout (db : DB) (eid d : Nat) (co : String) : DB :=
  { db with employee_attendance :=
      db.employee_attendance.map (fun r =>
        if r.employee_id == eid && r.date == d then
          { r with check_out := some co, status := some "checked_out" }
        else r) }

/-- `UPDATE employee_attendance SET status = %s, check_in = %s WHERE
employee_id = %s AND date = %s`. -/
def attendance_update_checkin (db : DB) (eid d : Nat) (s : Option String)
    (ci : String) : DB :=
  { db with employee_attendance :=
      db.employee_attendance.map (fun r =>
        if r.employee_id == eid && r.date == d then
          { r with status := s, check_in := some ci }
        else r) }

/-- `INSERT INTO employee_attendance (...) VALUES (...)`. -/
def attendance_insert (db : DB) (row : AttendanceRow) : DB :=
  { db with employee_attendance := db.employee_attendance ++ [row] }

/-- The JSON body of a `POST /api/employee-attendance` request.
`action` defaults to `"check_in"` at the `data.get` site, so it is a
plain string here. -/
structure AttendanceRequest where
  employee_id : Option Nat
  status : Option String
  check_in : Option String
  check_out : Option String
  action : String
deriving Repr, DecidableEq

/-- `status in ['present', 'absent', 'late', 'checked_out']` for the
request's status field (a missing field is not in the list). -/
def valid_status : Option String → Bool
  | none => false
  | some s => s == "present" || s == "absent" || s == "late" || s == "checked_out"

/-- Printing of the existing status inside the guard messages
(`f'... "{current_status}" ...'`); `None` prints as `"None"`. -/
def pystr : Option String → String
  | none => "None"
  | some s => s

/-- `POST /api/employee-attendance` — `mark_employee_attendance` in
`backend/app.py`, the attendance state machine. `current_user` is the
user id resolved from the token by `token_required`; `today` and
`current_time` are the server's clock at call time. No exception is
modelled: this is the normal-execution semantics. -/
def mark_employee_attendance (db : DB) (current_user : Nat)
    (req : AttendanceRequest) (today : Nat) (current_time : String) :
    HandlerResult :=
  if truthy_nat req.employee_id = false then
    ⟨400, "Employee ID is required", db, false, false⟩
  else if req.action = "check_in" ∧ truthy_str req.status = false then
    ⟨400, "Status is required for check-in", db, false, false⟩
  else if truthy_str req.status = true ∧ valid_status req.status = false then
    ⟨400, "Invalid status", db, false, false⟩
  else
    -- conn = get_db_connection() happens here
    let eid := req.employee_id.getD 0
    match find_employee db eid with
    | none => ⟨404, "Employee not found", db, true, true⟩
    | some employee =>
      match find_user db current_user with
      | none => ⟨404, "User not found", db, true, true⟩
      | some user =>
        if norm_email employee.email ≠ norm_email user.email then
          ⟨403, "You can only mark your own attendance", db, true, true⟩
        else
          let existing := find_attendance db eid today
          if req.action = "check_out" then
            match existing with
            | some _ =>
              let actual_check_out := py_or_time req.check_out current_time
              let db1 := attendance_set_checkout db eid today actual_check_out
              let db2 := employees_set_status db1 eid (some "checked_out")
              ⟨200, "Attendance marked successfully", db2, true, true⟩
            | none =>
              ⟨400, "No check-in record found for today. Please check in first.",
               db, true, true⟩
          else
            let actual_check_in := py_or_time req.check_in current_time
            match existing with
            | some ex =>
              if (ex.status = some "present" ∨ ex.status = some "checked_out") ∧
                 (req.status = some "absent" ∨ req.status = some "late") then
                ⟨400, "Cannot change status from \x22" ++ pystr ex.status ++
                      "\x22 to \x22" ++ pystr req.status ++
                      "\x22. Employee already marked as " ++ pystr ex.status ++
                      " today.", db, true, true⟩
              else if (ex.status = some "absent" ∨ ex.status = some "late") ∧
                 (req.status = some "absent" ∨ req.status = some "late") then
                ⟨400, "Attendance already marked as \x22" ++ pystr ex.status ++
                      "\x22 today. Cannot mark as " ++ pystr req.status ++
                      " again for the same day.", db, true, true⟩
              else
                let db1 := attendance_update_checkin db eid today req.status
                  actual_check_in
                let db2 := employees_set_status db1 eid req.status
                ⟨200, "Attendance marked successfully", db2, true, true⟩
            | none =>
              let db1 := attendance_insert db
                ⟨eid, employee.name, today, some actual_check_in, none, req.status⟩
              let db2 := employees_set_status db1 eid req.status
              ⟨200, "Attendance marked successfully", db2, true, true⟩

/-- The JSON body of a `POST /api/signup` request.
(`data.get('employee_id', '')` supplies `''` for a missing field.) -/
structure SignupData where
  name : Option String
  email : Option String
  password : Option String
  employee_id : Option String
deriving Repr, DecidableEq

/-- Python `str.isdigit` restricted to the ASCII strings of the model:
empty strings are not digit strings. -/
def py_isdigit (s : String) : Bool :=
  s != "" && s.data.all Char.isDigit

/-- `POST /api/signup` — `signup` in `backend/app.py`. `hashed` is
the bcrypt hash of the password (opaque external capability); the
fresh row id stands in for `AUTO_INCREMENT`. `insert_raises` models
the INSERT statement raising a database exception, which lands the run
in the handler's `except Exception` block (a 500 with no
`conn.close()` on that path). -/
def signup (db : DB) (d : SignupData) (hashed : String)
    (insert_raises : Bool) : HandlerResult :=
  if ¬ (truthy_str d.name = true ∧ truthy_str d.email = true ∧
        truthy_str d.password = true) then
    ⟨400, "All fields are required", db, false, false⟩
  else
    let name := d.name.getD ""
    let email := d.email.getD ""
    let employee_id := d.employee_id.getD ""
    if employee_id = "" ∨ employee_id.length ≠ 6 ∨ py_isdigit employee_id = false
    then
      ⟨400, "Employee ID must be exactly 6 digits", db, false, false⟩
    else
      -- conn = get_db_connection() happens here
      if (db.users.find? (fun u => u.email == email)).isSome then
        ⟨409, "User already exists", db, true, true⟩
      else if (db.users.find? (fun u => u.employee_id == employee_id)).isSome then
        ⟨409, "Employee ID already exists", db, true, true⟩
      else if insert_raises then
        -- except Exception: returns 500 without closing the connection
        ⟨500, "An error occurred during signup", db, true, false⟩
      else
        ⟨201, "User created successfully",
         { db with users := db.users ++
             [⟨db.users.length + 1, name, email, hashed, employee_id, false⟩] },
         true, true⟩

/-- `POST /api/login` — `login` in `backend/app.py`. `verify hash pw`
is `bcrypt.check_password_hash` (opaque external capability). -/
def login (verify : String → String → Bool) (db : DB)
    (d_employee_id d_password : Option String) : HandlerResult :=
  if ¬ (truthy_str d_password = true ∧ truthy_str d_employee_id = true) then
    ⟨400, "Password and Employee ID are required", db, false, false⟩
  else
    let password := d_password.getD ""
    let employee_id := d_employee_id.getD ""
    -- conn opened, the user row fetched, conn closed before the checks
    match db.users.find? (fun u => u.employee_id == employee_id) with
    | none => ⟨401, "Invalid credentials", db, true, true⟩
    | some user =>
      if verify user.password password = false then
        ⟨401, "Invalid credentials", db, true, true⟩
      else
        ⟨200, "Login successful", db, true, true⟩

/-- `DELETE /api/employees/<id>` — `delete_employee` in
`backend/app.py` (body after the `admin_required` wrapper). `now` is
`NOW()` at call time. -/
def delete_employee (db : DB) (eid : Nat) (now : Nat) : HandlerResult :=
  match db.employees.find? (fun e => e.id == eid && e.is_active) with
  | none => ⟨404, "Employee not found", db, true, true⟩
  | some _ =>
    ⟨200, "Employee deleted successfully",
     { db with employees := db.employees.map (fun e =>
         if e.id == eid then { e with is_active := false, deleted_at := some now }
         else e) },
     true, true⟩

/-- `GET /api/employees` — `get_employees` in `backend/app.py`: an
admin sees every active employee, a non-admin only the active rows
matching their own email, an unresolvable user id an empty list.
Row order (ORDER BY created_at) is not modelled. -/
def get_employees (db : DB) (current_user : Nat) : List EmployeeRow :=
  match find_user db current_user with
  | some u =>
    if u.is_admin then db.employees.filter (fun e => e.is_active)
    else db.employees.filter (fun e => e.email == u.email && e.is_active)
  | none => []

/-- `GET /api/employees/deleted` — `get_deleted_employees` in
`backend/app.py` (body after the `admin_required` wrapper). -/
def get_deleted_employees (db : DB) : List EmployeeRow :=
  db.employees.filter (fun e => e.is_active == false)

/-- `PUT /api/employees/<id>/status` — `update_employee_status` in
`backend/app.py` (body after the `token_required` wrapper; the body
never consults `current_user`). The UPDATE matches zero rows when no
employee has the id, and the handler still reports success. -/
def update_employee_status (db : DB) (current_user : Nat) (eid : Nat)
    (status : Option String) : HandlerResult :=
  if truthy_str status = false then
    ⟨400, "Status is required", db, false, false⟩
  else
    let s := status.getD ""
    if ¬ (s = "present" ∨ s = "absent" ∨ s = "late") then
      ⟨400, "Invalid status", db, false, false⟩
    else
      ⟨200, "Employee status updated successfully",
       employees_set_status db eid (some s), true, true⟩

/-! ## General list lemmas used by the handler proofs -/

/-- `find?` commutes with a map that does not change the truth of the
predicate on any element. -/
theorem find?_map_key_preserving {α : Type} (p : α → Bool) (f : α → α)
    (hf : ∀ a, p (f a) = p a) (l : List α) :
    (l.map f).find? p = (l.find? p).map f := by
  induction l with
  | nil => rfl
  | cons a l ih =>
    by_cases h : p a = true
    · rw [List.map_cons, List.find?_cons_of_pos _ (by rw [hf]; exact h),
          List.find?_cons_of_pos _ h]
      rfl
    · rw [List.map_cons, List.find?_cons_of_neg _ (by rw [hf]; exact h),
          List.find?_cons_of_neg _ h, ih]

/-- A successful `find?` is unaffected by appending rows. -/
theorem find?_append_some {α : Type} {p : α → Bool} {l₁ : List α} (l₂ : List α)
    {a : α} (h : l₁.find? p = some a) : (l₁ ++ l₂).find? p = some a := by
  induction l₁ with
  | nil => simp [List.find?] at h
  | cons x l ih =>
    by_cases hx : p x = true
    · rw [List.find?_cons_of_pos _ hx] at h
      rw [List.cons_append, List.find?_cons_of_pos _ hx]
      exact h
    · rw [List.find?_cons_of_neg _ hx] at h
      rw [List.cons_append, List.find?_cons_of_neg _ hx]
      exact ih h

/-! ## How each SQL write affects the lookups -/

/-- Updating the `employees` table does not affect attendance lookups. -/
theorem find_attendance_employees_set_status (db : DB) (e : Nat)
    (s : Option String) (a d : Nat) :
    find_attendance (employees_set_status db e s) a d = find_attendance db a d :=
  rfl

/-- Effect of the check-out UPDATE on an attendance lookup. -/
theorem find_attendance_set_checkout (db : DB) (eid d : Nat) (co : String)
    (a b : Nat) :
    find_attendance (attendance_set_checkout db eid d co) a b =
      (find_attendance db a b).map (fun r =>
        if r.employee_id == eid && r.date == d then
          { r with check_out := some co, status := some "checked_out" } else r) := by
  unfold find_attendance attendance_set_checkout
  exact find?_map_key_preserving _ _
    (fun r => by by_cases h : (r.employee_id == eid && r.date == d) = true <;>
      simp [h]) _

/-- Effect of the check-in UPDATE on an attendance lookup. -/
theorem find_attendance_update_checkin (db : DB) (eid d : Nat)
    (s : Option String) (ci : String) (a b : Nat) :
    find_attendance (attendance_update_checkin db eid d s ci) a b =
      (find_attendance db a b).map (fun r =>
        if r.employee_id == eid && r.date == d then
          { r with status := s, check_in := some ci } else r) := by
  unfold find_attendance attendance_update_checkin
  exact find?_map_key_preserving _ _
    (fun r => by by_cases h : (r.employee_id == eid && r.date == d) = true <;>
      simp [h]) _

/-- A successful attendance lookup pins the row's key fields. -/
theorem find_attendance_key {db : DB} {eid d : Nat} {r : AttendanceRow}
    (h : find_attendance db eid d = some r) :
    r.employee_id = eid ∧ r.date = d := by
  have := List.find?_some h
  simp only [Bool.and_eq_true, beq_iff_eq] at this
  exact this

/-- An attendance INSERT does not disturb a row already found. -/
theorem find_attendance_insert_of_some {db : DB} {eid d : Nat}
    {r : AttendanceRow} (row : AttendanceRow)
    (h : find_attendance db eid d = some r) :
    find_attendance (attendance_insert db row) eid d = some r :=
  find?_append_some _ h

/-! ## The claims -/

/-- C5: a signup whose `employee_id` is not exactly six digit
characters — including a missing or empty one — is rejected with a
400 response before any database connection is opened and before any
persistence write. -/
theorem signup_invalid_employee_id_rejected_before_db
    (db : DB) (d : SignupData) (hashed : String) (insert_raises : Bool)
    (h : (d.employee_id.getD "").length ≠ 6 ∨
         py_isdigit (d.employee_id.getD "") = false) :
    (signup db d hashed insert_raises).code = 400 ∧
    (signup db d hashed insert_raises).conn_opened = false ∧
    (signup db d hashed insert_raises).db = db := by
  unfold signup
  split
  · exact ⟨rfl, rfl, rfl⟩
  · rw [if_pos (Or.inr h)]
    exact ⟨rfl, rfl, rfl⟩

/-- Witness for C5 at a concrete five-character employee id. -/
theorem signup_invalid_employee_id_rejected_before_db_witness :
    (signup ⟨[], [], []⟩ ⟨some "Ann", some "ann@x.com", some "pw", some "12345"⟩
        "h" false).code = 400 ∧
    (signup ⟨[], [], []⟩ ⟨some "Ann", some "ann@x.com", some "pw", some "12345"⟩
        "h" false).conn_opened = false ∧
    (signup ⟨[], [], []⟩ ⟨some "Ann", some "ann@x.com", some "pw", some "12345"⟩
        "h" false).db = ⟨[], [], []⟩ :=
  signup_invalid_employee_id_rejected_before_db _ _ _ _ (by decide)

/-- C9: with no row yet for (employee, today), a check-in call whose
requested status is `"checked_out"` passes validation, creates the
attendance row with status `checked_out`, and sets the employee's
current-status field to `checked_out`, although no check-out action
occurred. Shown on a concrete store. -/
theorem mark_attendance_checkin_accepts_checked_out_status :
    (mark_employee_attendance
        ⟨[⟨1, "Ann", "ann@x.com", "h", "123456", false⟩],
         [⟨1, "Ann", "ann@x.com", "Eng", some "absent", true, none⟩],
         []⟩ 1
        ⟨some 1, some "checked_out", some "09:00", none, "check_in"⟩
        7 "08:55:00").code = 200 ∧
    find_attendance
      (mark_employee_attendance
        ⟨[⟨1, "Ann", "ann@x.com", "h", "123456", false⟩],
         [⟨1, "Ann", "ann@x.com", "Eng", some "absent", true, none⟩],
         []⟩ 1
        ⟨some 1, some "checked_out", some "09:00", none, "check_in"⟩
        7 "08:55:00").db 1 7 =
      some ⟨1, "Ann", 7, some "09:00", none, some "checked_out"⟩ ∧
    find_employee
      (mark_employee_attendance
        ⟨[⟨1, "Ann", "ann@x.com", "h", "123456", false⟩],
         [⟨1, "Ann", "ann@x.com", "Eng", some "absent", true, none⟩],
         []⟩ 1
        ⟨some 1, some "checked_out", some "09:00", none, "check_in"⟩
        7 "08:55:00").db 1 =
      some ⟨1, "Ann", "ann@x.com", "Eng", some "checked_out", true, none⟩ := by
  decide

/-- C10: the status-update endpoint only needs a token: for any
caller and any employee id — including one matching no employee row —
a request with a status among present/absent/late reports 200
"Employee status updated successfully", and the outcome does not
depend on who the caller is. -/
theorem update_employee_status_needs_only_token
    (db : DB) (current_user current_user' eid : Nat) (s : String)
    (h : s = "present" ∨ s = "absent" ∨ s = "late") :
    (update_employee_status db current_user eid (some s)).code = 200 ∧
    (update_employee_status db current_user eid (some s)).message =
      "Employee status updated successfully" ∧
    update_employee_status db current_user eid (some s) =
      update_employee_status db current_user' eid (some s) := by
  have ht : truthy_str (some s) = true := by
    rcases h with h | h | h <;> simp [truthy_str, h]
  unfold update_employee_status
  rw [if_neg (by simp [ht]), if_neg (not_not_intro (by simpa using h))]
  exact ⟨rfl, rfl, rfl⟩

/-- Witness for C10 on a store containing no employee with the
requested id (the UPDATE matches zero rows, yet the call succeeds). -/
theorem update_employee_status_needs_only_token_witness :
    (update_employee_status ⟨[], [], []⟩ 5 42 (some "late")).code = 200 ∧
    (update_employee_status ⟨[], [], []⟩ 5 42 (some "late")).message =
      "Employee status updated successfully" ∧
    update_employee_status ⟨[], [], []⟩ 5 42 (some "late") =
      update_employee_status ⟨[], [], []⟩ 9 42 (some "late") :=
  update_employee_status_needs_only_token _ _ _ _ _ (by decide)

/-- C6: login succeeds (200) exactly when a user with the supplied
employee id exists and the password verifies against the stored hash;
the unknown-id failure and the wrong-password failure return the very
same 401 response with message "Invalid credentials". -/
theorem login_success_iff_and_uniform_failure
    (verify : String → String → Bool) (db : DB) (eid pw : String)
    (heid : eid ≠ "") (hpw : pw ≠ "") :
    ((login verify db (some eid) (some pw)).code = 200 ↔
      ∃ u, db.users.find? (fun u => u.employee_id == eid) = some u ∧
        verify u.password pw = true) ∧
    (db.users.find? (fun u => u.employee_id == eid) = none →
      login verify db (some eid) (some pw) =
        ⟨401, "Invalid credentials", db, true, true⟩) ∧
    (∀ u, db.users.find? (fun u => u.employee_id == eid) = some u →
      verify u.password pw = false →
      login verify db (some eid) (some pw) =
        ⟨401, "Invalid credentials", db, true, true⟩) := by
  have hcond : ¬ ¬ (truthy_str (some pw) = true ∧ truthy_str (some eid) = true) := by
    simp [truthy_str, hpw, heid]
  unfold login
  rw [if_neg hcond]
  simp only [Option.getD_some]
  cases hfind : db.users.find? (fun u => u.employee_id == eid) with
  | none => simp [hfind]
  | some u =>
    refine ⟨?_, ?_, ?_⟩
    · by_cases hv : verify u.password pw = false
      · simp [hfind, hv]
      · simp only [Bool.not_eq_false] at hv
        simp [hfind, hv]
    · intro hnone
      cases hnone
    · intro u' hu' hv
      injection hu' with h
      subst h
      simp [hv]

/-- Witness for C6: the unknown-id case on a concrete store. -/
theorem login_success_iff_and_uniform_failure_witness :
    ((login (fun h p => h == p)
        ⟨[⟨1, "Ann", "ann@x.com", "pw", "123456", false⟩], [], []⟩
        (some "999999") (some "pw")).code = 200 ↔
      ∃ u, ([⟨1, "Ann", "ann@x.com", "pw", "123456", false⟩] :
          List UserRow).find? (fun u => u.employee_id == "999999") = some u ∧
        (fun (h p : String) => h == p) u.password "pw" = true) ∧
    (([⟨1, "Ann", "ann@x.com", "pw", "123456", false⟩] :
        List UserRow).find? (fun u => u.employee_id == "999999") = none →
      login (fun h p => h == p)
        ⟨[⟨1, "Ann", "ann@x.com", "pw", "123456", false⟩], [], []⟩
        (some "999999") (some "pw") =
        ⟨401, "Invalid credentials",
         ⟨[⟨1, "Ann", "ann@x.com", "pw", "123456", false⟩], [], []⟩,
         true, true⟩) ∧
    (∀ u, ([⟨1, "Ann", "ann@x.com", "pw", "123456", false⟩] :
        List UserRow).find? (fun u => u.employee_id == "999999") = some u →
      (fun (h p : String) => h == p) u.password "pw" = false →
      login (fun h p => h == p)
        ⟨[⟨1, "Ann", "ann@x.com", "pw", "123456", false⟩], [], []⟩
        (some "999999") (some "pw") =
        ⟨401, "Invalid credentials",
         ⟨[⟨1, "Ann", "ann@x.com", "pw", "123456", false⟩], [], []⟩,
         true, true⟩) :=
  login_success_iff_and_uniform_failure (fun h p => h == p)
    ⟨[⟨1, "Ann", "ann@x.com", "pw", "123456", false⟩], [], []⟩
    "999999" "pw" (by decide) (by decide)

/-- C4: once validation passes and both the target employee and the
calling user resolve, a marking call whose normalized caller email
differs from the normalized target email is answered 403 with the
store unchanged — whether or not the caller is an admin (the user's
admin flag is arbitrary here). -/
theorem mark_attendance_email_mismatch_403
    (db : DB) (current_user : Nat) (req : AttendanceRequest) (today : Nat)
    (ct : String) (employee : EmployeeRow) (user : UserRow)
    (h1 : truthy_nat req.employee_id = true)
    (h2 : req.action = "check_in" → truthy_str req.status = true)
    (h3 : truthy_str req.status = true → valid_status req.status = true)
    (hemp : find_employee db (req.employee_id.getD 0) = some employee)
    (husr : find_user db current_user = some user)
    (hmail : norm_email employee.email ≠ norm_email user.email) :
    mark_employee_attendance db current_user req today ct =
      ⟨403, "You can only mark your own attendance", db, true, true⟩ := by
  unfold mark_employee_attendance
  rw [if_neg (by simp [h1]),
      if_neg (fun hc => by simp [h2 hc.1] at hc),
      if_neg (fun hc => by simp [h3 hc.1] at hc)]
  simp only [hemp, husr]
  rw [if_pos hmail]

/-- Witness for C4: an admin caller whose email differs from the
target employee's is rejected with 403 and the store is unchanged. -/
theorem mark_attendance_email_mismatch_403_witness :
    mark_employee_attendance
      ⟨[⟨2, "Root", "root@x.com", "h", "000001", true⟩],
       [⟨1, "Ann", "ann@x.com", "Eng", some "present", true, none⟩],
       []⟩ 2
      ⟨some 1, some "present", none, none, "check_in"⟩ 7 "09:00:00" =
      ⟨403, "You can only mark your own attendance",
       ⟨[⟨2, "Root", "root@x.com", "h", "000001", true⟩],
        [⟨1, "Ann", "ann@x.com", "Eng", some "present", true, none⟩],
        []⟩, true, true⟩ :=
  mark_attendance_email_mismatch_403
    ⟨[⟨2, "Root", "root@x.com", "h", "000001", true⟩],
     [⟨1, "Ann", "ann@x.com", "Eng", some "present", true, none⟩], []⟩
    2 ⟨some 1, some "present", none, none, "check_in"⟩ 7 "09:00:00"
    ⟨1, "Ann", "ann@x.com", "Eng", some "present", true, none⟩
    ⟨2, "Root", "root@x.com", "h", "000001", true⟩
    (by decide) (by decide) (by decide) (by decide) (by decide) (by decide)

/-- C3: an authorized check-out call with no attendance row for
(employee, today) is rejected 400 with "no check-in found" and the
store unchanged; with a row it succeeds and unconditionally sets the
row's check-out time and status `checked_out`, whatever the row's
current status was — so a repeated check-out merely overwrites the
time. -/
theorem mark_attendance_check_out
    (db : DB) (current_user : Nat) (req : AttendanceRequest) (today : Nat)
    (ct : String) (eid : Nat) (employee : EmployeeRow) (user : UserRow)
    (heid : req.employee_id = some eid) (heid0 : eid ≠ 0)
    (hact : req.action = "check_out")
    (h3 : truthy_str req.status = true → valid_status req.status = true)
    (hemp : find_employee db eid = some employee)
    (husr : find_user db current_user = some user)
    (hmail : norm_email employee.email = norm_email user.email) :
    (find_attendance db eid today = none →
      mark_employee_attendance db current_user req today ct =
        ⟨400, "No check-in record found for today. Please check in first.",
         db, true, true⟩) ∧
    (∀ ex, find_attendance db eid today = some ex →
      (mark_employee_attendance db current_user req today ct).code = 200 ∧
      find_attendance (mark_employee_attendance db current_user req today ct).db
          eid today =
        some { ex with check_out := some (py_or_time req.check_out ct),
                       status := some "checked_out" }) := by
  have h1 : truthy_nat req.employee_id = true := by
    simp [heid, truthy_nat, heid0]
  unfold mark_employee_attendance
  rw [if_neg (by simp [h1]),
      if_neg (fun hc => by rw [hact] at hc; simp at hc),
      if_neg (fun hc => by simp [h3 hc.1] at hc)]
  simp only [heid, Option.getD_some, hemp, husr]
  rw [if_neg (not_not_intro hmail), if_pos hact]
  constructor
  · intro hnone
    simp only [hnone]
  · intro ex hex
    refine ⟨by simp [hex], ?_⟩
    simp only [hex]
    rw [find_attendance_employees_set_status, find_attendance_set_checkout, hex]
    have hkey := find_attendance_key hex
    simp [hkey.1, hkey.2]

/-- Witness for C3: a second check-out on a row already checked out
overwrites the check-out time. -/
theorem mark_attendance_check_out_witness :
    (mark_employee_attendance
      ⟨[⟨1, "Ann", "ann@x.com", "h", "123456", false⟩],
       [⟨1, "Ann", "ann@x.com", "Eng", some "checked_out", true, none⟩],
       [⟨1, "Ann", 7, some "09:00", some "17:00", some "checked_out"⟩]⟩ 1
      ⟨some 1, none, none, some "18:00", "check_out"⟩ 7 "18:05:00").code = 200 ∧
    find_attendance
      (mark_employee_attendance
        ⟨[⟨1, "Ann", "ann@x.com", "h", "123456", false⟩],
         [⟨1, "Ann", "ann@x.com", "Eng", some "checked_out", true, none⟩],
         [⟨1, "Ann", 7, some "09:00", some "17:00", some "checked_out"⟩]⟩ 1
        ⟨some 1, none, none, some "18:00", "check_out"⟩ 7 "18:05:00").db 1 7 =
      some ⟨1, "Ann", 7, some "09:00", some "18:00", some "checked_out"⟩ :=
  (mark_attendance_check_out
    ⟨[⟨1, "Ann", "ann@x.com", "h", "123456", false⟩],
     [⟨1, "Ann", "ann@x.com", "Eng", some "checked_out", true, none⟩],
     [⟨1, "Ann", 7, some "09:00", some "17:00", some "checked_out"⟩]⟩ 1
    ⟨some 1, none, none, some "18:00", "check_out"⟩ 7 "18:05:00" 1
    ⟨1, "Ann", "ann@x.com", "Eng", some "checked_out", true, none⟩
    ⟨1, "Ann", "ann@x.com", "h", "123456", false⟩
    (by decide) (by decide) (by decide) (by decide) (by decide) (by decide)
    (by decide)).2
    ⟨1, "Ann", 7, some "09:00", some "17:00", some "checked_out"⟩ (by decide)

/-- C2: on an existing row marked absent or late, an authorized
check-in with status again absent/late is rejected 400 with the store
unchanged, while a `present` correction succeeds: it rewrites the
row's status and check-in time in place (no new row is added). -/
theorem mark_attendance_absent_late_row
    (db : DB) (current_user : Nat) (req : AttendanceRequest) (today : Nat)
    (ct : String) (eid : Nat) (employee : EmployeeRow) (user : UserRow)
    (ex : AttendanceRow)
    (heid : req.employee_id = some eid) (heid0 : eid ≠ 0)
    (hact : req.action = "check_in")
    (hemp : find_employee db eid = some employee)
    (husr : find_user db current_user = some user)
    (hmail : norm_email employee.email = norm_email user.email)
    (hrow : find_attendance db eid today = some ex)
    (hcur : ex.status = some "absent" ∨ ex.status = some "late") :
    ((req.status = some "absent" ∨ req.status = some "late") →
      (mark_employee_attendance db current_user req today ct).code = 400 ∧
      (mark_employee_attendance db current_user req today ct).db = db) ∧
    (req.status = some "present" →
      (mark_employee_attendance db current_user req today ct).code = 200 ∧
      find_attendance (mark_employee_attendance db current_user req today ct).db
          eid today =
        some { ex with status := some "present",
                       check_in := some (py_or_time req.check_in ct) } ∧
      (mark_employee_attendance db current_user req today ct).db.employee_attendance.length =
        db.employee_attendance.length) := by
  have h1 : truthy_nat req.employee_id = true := by
    simp [heid, truthy_nat, heid0]
  constructor
  · intro hs
    have hts : truthy_str req.status = true := by
      rcases hs with h | h <;> simp [truthy_str, h]
    have hvs : valid_status req.status = true := by
      rcases hs with h | h <;> simp [valid_status, h]
    unfold mark_employee_attendance
    rw [if_neg (by simp [h1]),
        if_neg (fun hc => by simp [hts] at hc),
        if_neg (fun hc => by simp [hvs] at hc)]
    simp only [heid, Option.getD_some, hemp, husr]
    rw [if_neg (not_not_intro hmail), if_neg (by simp [hact])]
    simp only [hrow]
    rw [if_neg (fun hg => by
          rcases hcur with hc | hc <;> rcases hg.1 with h | h <;>
            rw [hc] at h <;> simp at h),
        if_pos ⟨hcur, hs⟩]
    exact ⟨rfl, rfl⟩
  · intro hs
    have hts : truthy_str req.status = true := by simp [truthy_str, hs]
    have hvs : valid_status req.status = true := by simp [valid_status, hs]
    unfold mark_employee_attendance
    rw [if_neg (by simp [h1]),
        if_neg (fun hc => by simp [hts] at hc),
        if_neg (fun hc => by simp [hvs] at hc)]
    simp only [heid, Option.getD_some, hemp, husr]
    rw [if_neg (not_not_intro hmail), if_neg (by simp [hact])]
    simp only [hrow]
    rw [if_neg (fun hg => by rcases hg.2 with h | h <;> rw [hs] at h <;> simp at h),
        if_neg (fun hg => by rcases hg.2 with h | h <;> rw [hs] at h <;> simp at h)]
    refine ⟨rfl, ?_, ?_⟩
    · rw [find_attendance_employees_set_status, find_attendance_update_checkin,
          hrow]
      have hkey := find_attendance_key hrow
      simp [hkey.1, hkey.2, hs]
    · simp [employees_set_status, attendance_update_checkin]

/-- Witness for C2: correcting an `absent` row to `present` in place. -/
theorem mark_attendance_absent_late_row_witness :
    (mark_employee_attendance
      ⟨[⟨1, "Ann", "ann@x.com", "h", "123456", false⟩],
       [⟨1, "Ann", "ann@x.com", "Eng", some "absent", true, none⟩],
       [⟨1, "Ann", 7, some "08:00", none, some "absent"⟩]⟩ 1
      ⟨some 1, some "present", some "09:15", none, "check_in"⟩ 7
      "09:20:00").code = 200 ∧
    find_attendance
      (mark_employee_attendance
        ⟨[⟨1, "Ann", "ann@x.com", "h", "123456", false⟩],
         [⟨1, "Ann", "ann@x.com", "Eng", some "absent", true, none⟩],
         [⟨1, "Ann", 7, some "08:00", none, some "absent"⟩]⟩ 1
        ⟨some 1, some "present", some "09:15", none, "check_in"⟩ 7
        "09:20:00").db 1 7 =
      some ⟨1, "Ann", 7, some "09:15", none, some "present"⟩ ∧
    (mark_employee_attendance
      ⟨[⟨1, "Ann", "ann@x.com", "h", "123456", false⟩],
       [⟨1, "Ann", "ann@x.com", "Eng", some "absent", true, none⟩],
       [⟨1, "Ann", 7, some "08:00", none, some "absent"⟩]⟩ 1
      ⟨some 1, some "present", some "09:15", none, "check_in"⟩ 7
      "09:20:00").db.employee_attendance.length =
      ([⟨1, "Ann", 7, some "08:00", none, some "absent"⟩] :
        List AttendanceRow).length :=
  (mark_attendance_absent_late_row
    ⟨[⟨1, "Ann", "ann@x.com", "h", "123456", false⟩],
     [⟨1, "Ann", "ann@x.com", "Eng", some "absent", true, none⟩],
     [⟨1, "Ann", 7, some "08:00", none, some "absent"⟩]⟩ 1
    ⟨some 1, some "present", some "09:15", none, "check_in"⟩ 7 "09:20:00" 1
    ⟨1, "Ann", "ann@x.com", "Eng", some "absent", true, none⟩
    ⟨1, "Ann", "ann@x.com", "h", "123456", false⟩
    ⟨1, "Ann", 7, some "08:00", none, some "absent"⟩
    (by decide) (by decide) (by decide) (by decide) (by decide) (by decide)
    (by decide) (by decide)).2 (by decide)

/-- C1: on an existing row whose status is present or checked_out, an
authorized check-in requesting absent or late is rejected 400 with the
store unchanged; moreover after ANY marking call whatsoever, that
day's row never carries status absent or late. -/
theorem mark_attendance_no_downgrade
    (db : DB) (eid today : Nat) (ex : AttendanceRow)
    (hrow : find_attendance db eid today = some ex)
    (hcur : ex.status = some "present" ∨ ex.status = some "checked_out") :
    (∀ current_user req ct (employee : EmployeeRow) (user : UserRow),
      req.employee_id = some eid → eid ≠ 0 →
      req.action = "check_in" →
      (req.status = some "absent" ∨ req.status = some "late") →
      find_employee db eid = some employee →
      find_user db current_user = some user →
      norm_email employee.email = norm_email user.email →
      (mark_employee_attendance db current_user req today ct).code = 400 ∧
      (mark_employee_attendance db current_user req today ct).db = db) ∧
    (∀ current_user req (ct : String) (ex' : AttendanceRow),
      find_attendance (mark_employee_attendance db current_user req today ct).db
          eid today = some ex' →
      ex'.status ≠ some "absent" ∧ ex'.status ≠ some "late") := by
  have hkeyex := find_attendance_key hrow
  have hne : ex.status ≠ some "absent" ∧ ex.status ≠ some "late" := by
    rcases hcur with h | h <;> rw [h] <;> exact ⟨by simp, by simp⟩
  constructor
  · intro current_user req ct employee user heid heid0 hact hs hemp husr hmail
    have h1 : truthy_nat req.employee_id = true := by
      simp [heid, truthy_nat, heid0]
    have hts : truthy_str req.status = true := by
      rcases hs with h | h <;> simp [truthy_str, h]
    have hvs : valid_status req.status = true := by
      rcases hs with h | h <;> simp [valid_status, h]
    unfold mark_employee_attendance
    rw [if_neg (by simp [h1]),
        if_neg (fun hc => by simp [hts] at hc),
        if_neg (fun hc => by simp [hvs] at hc)]
    simp only [heid, Option.getD_some, hemp, husr]
    rw [if_neg (not_not_intro hmail), if_neg (by simp [hact])]
    simp only [hrow]
    rw [if_pos ⟨hcur, hs⟩]
    exact ⟨rfl, rfl⟩
  · intro current_user req ct ex' hex'
    unfold mark_employee_attendance at hex'
    by_cases c1 : truthy_nat req.employee_id = false
    · rw [if_pos c1] at hex'
      dsimp only at hex'
      rw [hrow] at hex'
      injection hex' with hh
      subst hh
      exact hne
    · rw [if_neg c1] at hex'
      by_cases c2 : req.action = "check_in" ∧ truthy_str req.status = false
      · rw [if_pos c2] at hex'
        dsimp only at hex'
        rw [hrow] at hex'
        injection hex' with hh
        subst hh
        exact hne
      · rw [if_neg c2] at hex'
        by_cases c3 : truthy_str req.status = true ∧ valid_status req.status = false
        · rw [if_pos c3] at hex'
          dsimp only at hex'
          rw [hrow] at hex'
          injection hex' with hh
          subst hh
          exact hne
        · rw [if_neg c3] at hex'
          dsimp only at hex'
          cases hemp2 : find_employee db (req.employee_id.getD 0) with
          | none =>
            simp only [hemp2] at hex'
            rw [hrow] at hex'
            injection hex' with hh
            subst hh
            exact hne
          | some emp =>
            simp only [hemp2] at hex'
            cases husr2 : find_user db current_user with
            | none =>
              simp only [husr2] at hex'
              rw [hrow] at hex'
              injection hex' with hh
              subst hh
              exact hne
            | some usr =>
              simp only [husr2] at hex'
              by_cases cm : norm_email emp.email ≠ norm_email usr.email
              · rw [if_pos cm] at hex'
                dsimp only at hex'
                rw [hrow] at hex'
                injection hex' with hh
                subst hh
                exact hne
              · rw [if_neg cm] at hex'
                by_cases ca : req.action = "check_out"
                · rw [if_pos ca] at hex'
                  cases hatt : find_attendance db (req.employee_id.getD 0) today with
                  | some r =>
                    simp only [hatt] at hex'
                    rw [find_attendance_employees_set_status,
                        find_attendance_set_checkout, hrow] at hex'
                    simp only [Option.map_some'] at hex'
                    injection hex' with hh
                    subst hh
                    by_cases hk : (ex.employee_id == req.employee_id.getD 0 &&
                        ex.date == today) = true
                    · simp only [if_pos hk]
                      exact ⟨by simp, by simp⟩
                    · simp only [if_neg hk]
                      exact hne
                  | none =>
                    simp only [hatt] at hex'
                    rw [hrow] at hex'
                    injection hex' with hh
                    subst hh
                    exact hne
                · rw [if_neg ca] at hex'
                  cases hatt : find_attendance db (req.employee_id.getD 0) today with
                  | some r =>
                    simp only [hatt] at hex'
                    by_cases g1 : (r.status = some "present" ∨
                        r.status = some "checked_out") ∧
                        (req.status = some "absent" ∨ req.status = some "late")
                    · rw [if_pos g1] at hex'
                      dsimp only at hex'
                      rw [hrow] at hex'
                      injection hex' with hh
                      subst hh
                      exact hne
                    · rw [if_neg g1] at hex'
                      by_cases g2 : (r.status = some "absent" ∨
                          r.status = some "late") ∧
                          (req.status = some "absent" ∨ req.status = some "late")
                      · rw [if_pos g2] at hex'
                        dsimp only at hex'
                        rw [hrow] at hex'
                        injection hex' with hh
                        subst hh
                        exact hne
                      · rw [if_neg g2] at hex'
                        dsimp only at hex'
                        rw [find_attendance_employees_set_status,
                            find_attendance_update_checkin, hrow] at hex'
                        simp only [Option.map_some'] at hex'
                        injection hex' with hh
                        subst hh
                        by_cases hk : (ex.employee_id == req.employee_id.getD 0 &&
                            ex.date == today) = true
                        · simp only [if_pos hk]
                          have he2 : req.employee_id.getD 0 = eid := by
                            have := (Bool.and_eq_true _ _).mp hk
                            have h1' := beq_iff_eq.mp this.1
                            rw [← h1', hkeyex.1]
                          rw [he2, hrow] at hatt
                          injection hatt with hr
                          subst hr
                          constructor
                          · intro habs
                            exact g1 ⟨hcur, Or.inl habs⟩
                          · intro hlate
                            exact g1 ⟨hcur, Or.inr hlate⟩
                        · simp only [if_neg hk]
                          exact hne
                  | none =>
                    simp only [hatt] at hex'
                    rw [find_attendance_employees_set_status] at hex'
                    rw [find_attendance_insert_of_some _ hrow] at hex'
                    injection hex' with hh
                    subst hh
                    exact hne

/-- Witness for C1's rejection half: a present row cannot be marked
absent. -/
theorem mark_attendance_no_downgrade_witness :
    (mark_employee_attendance
      ⟨[⟨1, "Ann", "ann@x.com", "h", "123456", false⟩],
       [⟨1, "Ann", "ann@x.com", "Eng", some "present", true, none⟩],
       [⟨1, "Ann", 7, some "09:00", none, some "present"⟩]⟩ 1
      ⟨some 1, some "absent", none, none, "check_in"⟩ 7 "10:00:00").code = 400 ∧
    (mark_employee_attendance
      ⟨[⟨1, "Ann", "ann@x.com", "h", "123456", false⟩],
       [⟨1, "Ann", "ann@x.com", "Eng", some "present", true, none⟩],
       [⟨1, "Ann", 7, some "09:00", none, some "present"⟩]⟩ 1
      ⟨some 1, some "absent", none, none, "check_in"⟩ 7 "10:00:00").db =
      ⟨[⟨1, "Ann", "ann@x.com", "h", "123456", false⟩],
       [⟨1, "Ann", "ann@x.com", "Eng", some "present", true, none⟩],
       [⟨1, "Ann", 7, some "09:00", none, some "present"⟩]⟩ :=
  (mark_attendance_no_downgrade
    ⟨[⟨1, "Ann", "ann@x.com", "h", "123456", false⟩],
     [⟨1, "Ann", "ann@x.com", "Eng", some "present", true, none⟩],
     [⟨1, "Ann", 7, some "09:00", none, some "present"⟩]⟩ 1 7
    ⟨1, "Ann", 7, some "09:00", none, some "present"⟩
    (by decide) (by decide)).1 1
    ⟨some 1, some "absent", none, none, "check_in"⟩ "10:00:00"
    ⟨1, "Ann", "ann@x.com", "Eng", some "present", true, none⟩
    ⟨1, "Ann", "ann@x.com", "h", "123456", false⟩
    (by decide) (by decide) (by decide) (by decide) (by decide) (by decide)
    (by decide)

/-- Any row a `get_employees` listing returns is active. -/
theorem get_employees_active (db : DB) (u : Nat) (x : EmployeeRow)
    (hx : x ∈ get_employees db u) : x.is_active = true := by
  unfold get_employees at hx
  cases hu : find_user db u with
  | none =>
    simp only [hu] at hx
    cases hx
  | some u0 =>
    simp only [hu] at hx
    by_cases ha : u0.is_admin = true
    · rw [if_pos ha] at hx
      exact (List.mem_filter.mp hx).2
    · rw [if_neg ha] at hx
      have h2 := (List.mem_filter.mp hx).2
      simp only [Bool.and_eq_true] at h2
      exact h2.2

/-- Any row a `get_employees` listing returns comes from the
`employees` table. -/
theorem get_employees_mem (db : DB) (u : Nat) (x : EmployeeRow)
    (hx : x ∈ get_employees db u) : x ∈ db.employees := by
  unfold get_employees at hx
  cases hu : find_user db u with
  | none =>
    simp only [hu] at hx
    cases hx
  | some u0 =>
    simp only [hu] at hx
    by_cases ha : u0.is_admin = true
    · rw [if_pos ha] at hx
      exact (List.mem_filter.mp hx).1
    · rw [if_neg ha] at hx
      exact (List.mem_filter.mp hx).1

/-- C7: deleting an existing active employee keeps the row (same table
size), merely flips `is_active` and stamps `deleted_at`; afterwards no
default employee listing — for any caller, admin or not — contains
that employee id, while the deleted listing does. -/
theorem delete_employee_soft_delete
    (db : DB) (eid now : Nat) (e : EmployeeRow)
    (hfind : db.employees.find? (fun x => x.id == eid && x.is_active) = some e) :
    (delete_employee db eid now).code = 200 ∧
    (delete_employee db eid now).db.employees.length = db.employees.length ∧
    { e with is_active := false, deleted_at := some now } ∈
      (delete_employee db eid now).db.employees ∧
    (∀ u, ∀ x ∈ get_employees (delete_employee db eid now).db u, x.id ≠ eid) ∧
    (∃ x ∈ get_deleted_employees (delete_employee db eid now).db,
      x.id = eid ∧ x.is_active = false ∧ x.deleted_at = some now) := by
  have hp := List.find?_some hfind
  simp only [Bool.and_eq_true, beq_iff_eq] at hp
  have hmem := List.mem_of_find?_eq_some hfind
  unfold delete_employee
  simp only [hfind]
  have hfe : (fun x => if x.id == eid then
      { x with is_active := false, deleted_at := some now } else x) e =
      { e with is_active := false, deleted_at := some now } := by
    simp [hp.1]
  have hm2 : { e with is_active := false, deleted_at := some now } ∈
      db.employees.map (fun x => if x.id == eid then
        { x with is_active := false, deleted_at := some now } else x) := by
    rw [← hfe]
    exact List.mem_map_of_mem _ hmem
  refine ⟨by simp, by simp, hm2, ?_, ?_⟩
  · intro u x hx
    have hact := get_employees_active _ u x hx
    have hmm := get_employees_mem _ u x hx
    simp only at hmm
    rcases List.mem_map.mp hmm with ⟨y, _, hy⟩
    by_cases hk : (y.id == eid) = true
    · rw [if_pos hk] at hy
      rw [← hy] at hact
      simp at hact
    · rw [if_neg hk] at hy
      rw [← hy]
      simpa using hk
  · exact ⟨{ e with is_active := false, deleted_at := some now },
      List.mem_filter.mpr ⟨hm2, by simp⟩, hp.1, rfl, rfl⟩

/-- Witness for C7 on a two-employee store. -/
theorem delete_employee_soft_delete_witness :
    (delete_employee
      ⟨[], [⟨1, "Ann", "ann@x.com", "Eng", some "present", true, none⟩,
            ⟨2, "Bob", "bob@x.com", "Ops", none, true, none⟩], []⟩ 1 99).code =
      200 ∧
    (delete_employee
      ⟨[], [⟨1, "Ann", "ann@x.com", "Eng", some "present", true, none⟩,
            ⟨2, "Bob", "bob@x.com", "Ops", none, true, none⟩], []⟩ 1
      99).db.employees.length =
      ([⟨1, "Ann", "ann@x.com", "Eng", some "present", true, none⟩,
        ⟨2, "Bob", "bob@x.com", "Ops", none, true, none⟩] :
        List EmployeeRow).length ∧
    (⟨1, "Ann", "ann@x.com", "Eng", some "present", false, some 99⟩ :
        EmployeeRow) ∈
      (delete_employee
        ⟨[], [⟨1, "Ann", "ann@x.com", "Eng", some "present", true, none⟩,
              ⟨2, "Bob", "bob@x.com", "Ops", none, true, none⟩], []⟩ 1
        99).db.employees ∧
    (∀ u, ∀ x ∈ get_employees
        (delete_employee
          ⟨[], [⟨1, "Ann", "ann@x.com", "Eng", some "present", true, none⟩,
                ⟨2, "Bob", "bob@x.com", "Ops", none, true, none⟩], []⟩ 1 99).db
        u, x.id ≠ 1) ∧
    (∃ x ∈ get_deleted_employees
        (delete_employee
          ⟨[], [⟨1, "Ann", "ann@x.com", "Eng", some "present", true, none⟩,
                ⟨2, "Bob", "bob@x.com", "Ops", none, true, none⟩], []⟩ 1 99).db,
      x.id = 1 ∧ x.is_active = false ∧ x.deleted_at = some 99) :=
  delete_employee_soft_delete
    ⟨[], [⟨1, "Ann", "ann@x.com", "Eng", some "present", true, none⟩,
          ⟨2, "Bob", "bob@x.com", "Ops", none, true, none⟩], []⟩ 1 99
    ⟨1, "Ann", "ann@x.com", "Eng", some "present", true, none⟩ (by decide)

/-- C8 counterexample: it is NOT the case that every signup run which
opens the database connection also closes it — the catch-all
exception path (INSERT raising) returns 500 with the connection still
open. -/
theorem signup_exception_path_leaks_connection :
    ¬ (∀ (db : DB) (d : SignupData) (hashed : String) (insert_raises : Bool),
        (signup db d hashed insert_raises).conn_opened = true →
        (signup db d hashed insert_raises).conn_closed = true) := by
  intro hall
  exact absurd
    (hall ⟨[], [], []⟩ ⟨some "Ann", some "ann@x.com", some "pw", some "123456"⟩
      "h" true (by decide))
    (by decide)

/-- On non-exception runs of `signup`, the connection-closed flag
always equals the connection-opened flag. -/
theorem signup_conn_flags (db : DB) (d : SignupData) (hashed : String) :
    (signup db d hashed false).conn_closed =
      (signup db d hashed false).conn_opened := by
  unfold signup
  repeat' (first | split | dsimp only)
  all_goals first | rfl | simp_all

/-- In `login`, the connection-closed flag always equals the
connection-opened flag. -/
theorem login_conn_flags (vf : String → String → Bool) (db : DB)
    (e p : Option String) :
    (login vf db e p).conn_closed = (login vf db e p).conn_opened := by
  unfold login
  repeat' (first | split | dsimp only)

/-- In `mark_employee_attendance`, the connection-closed flag always
equals the connection-opened flag. -/
theorem mark_employee_attendance_conn_flags (db : DB) (cu : Nat)
    (req : AttendanceRequest) (t : Nat) (ct : String) :
    (mark_employee_attendance db cu req t ct).conn_closed =
      (mark_employee_attendance db cu req t ct).conn_opened := by
  unfold mark_employee_attendance
  repeat' (first | split | dsimp only)

/-- In `delete_employee`, the connection-closed flag always equals the
connection-opened flag. -/
theorem delete_employee_conn_flags (db : DB) (e n : Nat) :
    (delete_employee db e n).conn_closed = (delete_employee db e n).conn_opened := by
  unfold delete_employee
  repeat' (first | split | dsimp only)

/-- In `update_employee_status`, the connection-closed flag always
equals the connection-opened flag. -/
theorem update_employee_status_conn_flags (db : DB) (cu e : Nat)
    (s : Option String) :
    (update_employee_status db cu e s).conn_closed =
      (update_employee_status db cu e s).conn_opened := by
  unfold update_employee_status
  repeat' (first | split | dsimp only)

/-- C8 amended: on every exit path that does not go through the
catch-all exception handler, each modelled handler that opened the
database connection also closes it (for `signup`, the runs where the
INSERT does not raise). -/
theorem handlers_close_connection_without_exception :
    (∀ (db : DB) (d : SignupData) (hashed : String),
      (signup db d hashed false).conn_opened = true →
      (signup db d hashed false).conn_closed = true) ∧
    (∀ (vf : String → String → Bool) (db : DB) (e p : Option String),
      (login vf db e p).conn_opened = true →
      (login vf db e p).conn_closed = true) ∧
    (∀ (db : DB) (cu : Nat) (req : AttendanceRequest) (t : Nat) (ct : String),
      (mark_employee_attendance db cu req t ct).conn_opened = true →
      (mark_employee_attendance db cu req t ct).conn_closed = true) ∧
    (∀ (db : DB) (e n : Nat),
      (delete_employee db e n).conn_opened = true →
      (delete_employee db e n).conn_closed = true) ∧
    (∀ (db : DB) (cu e : Nat) (s : Option String),
      (update_employee_status db cu e s).conn_opened = true →
      (update_employee_status db cu e s).conn_closed = true) := by
  refine ⟨?_, ?_, ?_, ?_, ?_⟩
  · intro db d hashed h
    exact (signup_conn_flags db d hashed).trans h
  · intro vf db e p h
    exact (login_conn_flags vf db e p).trans h
  · intro db cu req t ct h
    exact (mark_employee_attendance_conn_flags db cu req t ct).trans h
  · intro db e n h
    exact (delete_employee_conn_flags db e n).trans h
  · intro db cu e s h
    exact (update_employee_status_conn_flags db cu e s).trans h

/-- Witness for C8's amended statement: a successful signup closes
the connection it opened. -/
theorem handlers_close_connection_without_exception_witness :
    (signup ⟨[], [], []⟩ ⟨some "Ann", some "ann@x.com", some "pw", some "123456"⟩
      "h" false).conn_closed = true :=
  handlers_close_connection_without_exception.1 ⟨[], [], []⟩
    ⟨some "Ann", some "ann@x.com", some "pw", some "123456"⟩ "h" (by decide)
